import Mathlib

/-!
Verification of the schema-modeling and NL-to-SQL translation engine of the
`nl-to-sql-converter` repository (`src/app.py`), as a shallow embedding.

The Python code works on strings; here every relevant Python string
primitive is modelled on `List Char` (the underlying data of Lean
`String`), restricted to the ASCII behaviour the repository exercises:

* `pyStrip`       models `str.strip()` (strip surrounding whitespace);
* `pyLower`, `pyUpper` model `str.lower()` / `str.upper()`;
* `pySplit`       models `str.split(sep)` for a one-character separator;
* `pyStartswith`  models `str.startswith`;
* `pyContains`    models the Python `in` substring test;
* `pyDrop`        models the slice `s[n:]`;
* `findSub`       models `str.find(sub)` (index of first occurrence);
* `joinSep`       models `sep.join(list)`.
-/

/-- Characters treated as whitespace by `str.strip` / regex `\s` (ASCII). -/
def isPySpace (c : Char) : Bool :=
  c = ' ' || c = '\t' || c = '\n' || c = '\r' || c = '\x0b' || c = '\x0c'

/-- Strip leading and trailing whitespace from a character list. -/
def stripChars (l : List Char) : List Char :=
  (((l.dropWhile isPySpace).reverse.dropWhile isPySpace).reverse)

/-- Python `str.strip()`. -/
def pyStrip (s : String) : String := String.mk (stripChars s.data)

/-- Python `str.lower()` (ASCII). -/
def pyLower (s : String) : String := String.mk (s.data.map Char.toLower)

/-- Python `str.upper()` (ASCII). -/
def pyUpper (s : String) : String := String.mk (s.data.map Char.toUpper)

/-- Python `str.startswith(pre)`. -/
def pyStartswith (s pre : String) : Bool := pre.data.isPrefixOf s.data

/-- Python slice `s[n:]`. -/
def pyDrop (s : String) (n : Nat) : String := String.mk (s.data.drop n)

/-- Split a character list on a separator character, Python `str.split(sep)`
semantics: the result is always non-empty and empty fields are kept. -/
def splitOnChar (c : Char) : List Char → List (List Char)
  | [] => [[]]
  | x :: xs =>
    let r := splitOnChar c xs
    if x = c then [] :: r
    else
      match r with
      | [] => [[x]]
      | y :: ys => (x :: y) :: ys

/-- Python `str.split(sep)` for a one-character separator. -/
def pySplit (c : Char) (s : String) : List String :=
  (splitOnChar c s.data).map String.mk

/-- Python `text.split('\n')`. -/
def splitLines (s : String) : List String := pySplit '\n' s

/-- Indexing into a split result; in the source every use is guarded so the
index is in range, hence the default is never reached there. -/
def getPart (xs : List String) (i : Nat) : String := xs.getD i ""

/-- Python `str.find(sub)`: index of the first occurrence, `none` if absent. -/
def findSub (pat : List Char) : List Char → Option Nat
  | [] => if pat.isPrefixOf ([] : List Char) then some 0 else none
  | c :: cs =>
    if pat.isPrefixOf (c :: cs) then some 0
    else (findSub pat cs).map (fun n => n + 1)

/-- Python substring membership `sub in s`:
true exactly when `str.find` succeeds. -/
def pyContains (s sub : String) : Bool := (findSub sub.data s.data).isSome

/-- Python `sep.join(parts)`. -/
def joinSep (sep : String) : List String → String
  | [] => ""
  | [x] => x
  | x :: y :: ys => x ++ sep ++ joinSep sep (y :: ys)

/-- A Python `dict` from table name to column list, as an association list
in key-insertion order. -/
abbrev ColDict := List (String × List String)

/-- Python `d[k] = v`: overwrite in place, append if the key is new. -/
def dictSet (d : ColDict) (k : String) (v : List String) : ColDict :=
  match d with
  | [] => [(k, v)]
  | (k1, v1) :: rest =>
    if k1 = k then (k, v) :: rest else (k1, v1) :: dictSet rest k v

/-- Python `d.get(k, [])`. -/
def dictGet (d : ColDict) (k : String) : List String :=
  match d with
  | [] => []
  | (k1, v1) :: rest => if k1 = k then v1 else dictGet rest k

/-!
## SchemaManager (`src/app.py`, class `SchemaManager`)

`extract_from_ddl` walks the DDL text line by line.  A line whose upper-case
form starts with `CREATE TABLE` opens a table via the regex
`CREATE TABLE\s+(?:`)?(\w+)(?:`)?` (case-insensitive `re.search`); any later
line is turned into a column entry via the regex
`(?:`)?(\w+)(?:`)?\s+(\w+(?:\(\d+(?:,\d+)?\))?)`, unless the line is empty,
a `--` comment, or contains a parenthesis character (such lines are skipped).
The regexes are embedded as explicit leftmost-match scanners below.
-/

/-- Regex `\w` word characters (ASCII). -/
def isWordChar (c : Char) : Bool := c.isAlphanum || c = '_'

/-- The backtick character (obtained from a string literal). -/
def backtick : Char := ("`".data).headD ' '

/-- Consume one optional leading backtick: regex `(?:`)?`. -/
def dropBacktick (l : List Char) : List Char :=
  match l with
  | [] => []
  | c :: t => if c = backtick then t else c :: t

/-- Case-insensitively consume the literal `pat` (given in upper case) from
the front of `l`, returning the remainder on success. -/
def dropCI : List Char → List Char → Option (List Char)
  | [], l => some l
  | _ :: _, [] => none
  | p :: ps, c :: cs => if c.toUpper = p then dropCI ps cs else none

/-- Try the table regex `CREATE TABLE\s+(?:`)?(\w+)(?:`)?` anchored at the
current position, returning the captured table name. -/
def tryCT (l : List Char) : Option (List Char) :=
  match dropCI ("CREATE TABLE".data) l with
  | none => none
  | some [] => none
  | some (c :: cs) =>
    if isPySpace c then
      let rest := dropBacktick (cs.dropWhile isPySpace)
      let name := rest.takeWhile isWordChar
      if name = [] then none else some name
    else none

/-- `re.search` of the table regex: leftmost position with a match. -/
def searchCT : List Char → Option (List Char)
  | [] => tryCT []
  | c :: cs =>
    match tryCT (c :: cs) with
    | some n => some n
    | none => searchCT cs

/-- Try the size qualifier `\(\d+(?:,\d+)?\)` anchored at the current
position, returning the matched text and the remainder. -/
def trySize (l : List Char) : Option (List Char × List Char) :=
  match l with
  | [] => none
  | c :: cs =>
    if c = '(' then
      let ds := cs.takeWhile Char.isDigit
      let r1 := cs.dropWhile Char.isDigit
      if ds = [] then none
      else
        match r1 with
        | ')' :: r2 => some ('(' :: ds ++ [')'], r2)
        | ',' :: r2 =>
          let ds2 := r2.takeWhile Char.isDigit
          let r3 := r2.dropWhile Char.isDigit
          if ds2 = [] then none
          else
            match r3 with
            | ')' :: r4 => some ('(' :: ds ++ ',' :: ds2 ++ [')'], r4)
            | _ => none
        | _ => none
    else none

/-- Try the column regex `(?:`)?(\w+)(?:`)?\s+(\w+(?:\(\d+(?:,\d+)?\))?)`
anchored at the current position, returning the two captured groups
(column name, column type including any size qualifier). -/
def tryCol (l : List Char) : Option (List Char × List Char) :=
  let l1 := dropBacktick l
  let name := l1.takeWhile isWordChar
  if name = [] then none
  else
    match dropBacktick (l1.dropWhile isWordChar) with
    | [] => none
    | c :: cs =>
      if isPySpace c then
        let r3 := cs.dropWhile isPySpace
        let ty := r3.takeWhile isWordChar
        if ty = [] then none
        else
          match trySize (r3.dropWhile isWordChar) with
          | some (sz, _) => some (name, ty ++ sz)
          | none => some (name, ty)
      else none

/-- `re.search` of the column regex: leftmost position with a match. -/
def searchCol : List Char → Option (List Char × List Char)
  | [] => tryCol []
  | c :: cs =>
    match tryCol (c :: cs) with
    | some r => some r
    | none => searchCol cs

/-- Constraint detection of `extract_from_ddl`: substring tests on the
upper-cased line, appended in the source's order
NOT NULL, PRIMARY KEY, FOREIGN KEY. -/
def constraintsOf (line : String) : List String :=
  (if pyContains (pyUpper line) "NOT NULL" then ["NOT NULL"] else []) ++
  (if pyContains (pyUpper line) "PRIMARY KEY" then ["PRIMARY KEY"] else []) ++
  (if pyContains (pyUpper line) "FOREIGN KEY" then ["FOREIGN KEY"] else [])

/-- One serialized column entry `  - <name>: <type>[ (<constraints>)]`. -/
def colEntry (line : String) (nm ty : List Char) : String :=
  let cs := constraintsOf line
  let cstr := if cs = [] then "" else " (" ++ joinSep ", " cs ++ ")"
  "  - " ++ String.mk nm ++ ": " ++ String.mk ty ++ cstr

/-- One iteration of the `extract_from_ddl` loop; state is
(accumulated `schema_info` lines, `current_table`). -/
def ddlLineStep (st : List String × Option String) (rawLine : String) :
    List String × Option String :=
  let line := pyStrip rawLine
  if pyStartswith (pyUpper line) "CREATE TABLE" then
    match searchCT line.data with
    | some nm =>
      (st.1 ++ ["\nTable: " ++ String.mk nm], some (String.mk nm))
    | none => st
  else
    match st.2 with
    | none => st
    | some _ =>
      if line = "" then st
      else if pyStartswith line "--" then st
      else if pyContains line "(" || pyContains line ")" then st
      else
        match searchCol line.data with
        | some (nm, ty) => (st.1 ++ [colEntry line nm ty], st.2)
        | none => st

/-- `SchemaManager.extract_from_ddl`. -/
def extract_from_ddl (ddl_text : String) : String :=
  let res := (splitLines ddl_text).foldl ddlLineStep ([], none)
  if res.1 = [] then ddl_text else joinSep "\n" res.1

/-- `SchemaManager.parse_schema_input`. -/
def parse_schema_input (schema_text : String) : String :=
  if pyStrip schema_text = "" then ""
  else
    let cleaned := pyStrip schema_text
    if pyContains (pyUpper cleaned) "CREATE TABLE" ||
        pyContains (pyUpper cleaned) "TABLE" ||
        pyContains (pyUpper cleaned) "COLUMN" then
      extract_from_ddl cleaned
    else cleaned

/-!
## NLToSQLConverter: rule-based tier
(`src/app.py`, `NLToSQLConverter.generate_sql_rule_based`)

The method first re-parses `schema_info` in the simple notation
(`Table:` lines and `- name: type` lines) into a table list and a
table-to-columns dict, then runs the pattern cascade.  Each Python
`for table in tables: if <column test>: return ...` loop commits to
the first table in model order passing the test, which is `List.find?`.
-/

/-- One iteration of the schema-scan loop of `generate_sql_rule_based`;
state is (tables, columns dict, current_table).  The column branch is
guarded by Python truthiness of `current_table`: both `None` and the
empty string (produced by a bare `Table:` line, which is still appended
to the table list) reject column lines. -/
def schemaLineStep (st : List String × ColDict × Option String)
    (rawLine : String) : List String × ColDict × Option String :=
  let line := pyStrip rawLine
  if pyStartswith line "Table:" then
    let name := pyStrip (getPart (pySplit ':' line) 1)
    (st.1 ++ [name], dictSet st.2.1 name [], some name)
  else
    match st.2.2 with
    | none => st
    | some t =>
      if pyStartswith line "- " && !(t = "") then
        let col_info := pyStrip (pyDrop line 2)
        if pyContains col_info ":" then
          let col_name := pyStrip (getPart (pySplit ':' col_info) 0)
          (st.1, dictSet st.2.1 t (dictGet st.2.1 t ++ [col_name]), some t)
        else st
      else st

/-- The schema scan of `generate_sql_rule_based`: tables in order of
appearance (appended unconditionally) and the column dict. -/
def ruleParse (schema_info : String) : List String × ColDict :=
  let st := (splitLines schema_info).foldl schemaLineStep ([], [], none)
  (st.1, st.2.1)

/-- `[col.lower() for col in columns.get(table, [])]`. -/
def lcCols (columns : ColDict) (t : String) : List String :=
  (dictGet columns t).map pyLower

/-- Department/engineering pattern (source lines 484-487). -/
def rule1 (ql : String) (tables : List String) (columns : ColDict) :
    Option String :=
  if pyContains ql "engineering" &&
      columns.any (fun kv => kv.2.any (fun col => pyContains col "department")) then
    (tables.find? (fun t => (lcCols columns t).contains "department")).map
      (fun t => "SELECT * FROM " ++ t ++ " WHERE department = 'Engineering';")
  else none

/-- Average-salary pattern (source lines 490-495): the first table having a
`salary` column decides; grouped form if it also has `department`. -/
def rule2 (ql : String) (tables : List String) (columns : ColDict) :
    Option String :=
  if pyContains ql "average" && pyContains ql "salary" then
    (tables.find? (fun t => (lcCols columns t).contains "salary")).map
      (fun t =>
        if (lcCols columns t).contains "department" then
          "SELECT department, AVG(salary) as avg_salary FROM " ++ t ++
            " GROUP BY department;"
        else "SELECT AVG(salary) as average_salary FROM " ++ t ++ ";")
  else none

/-- Top/highest price pattern (source lines 498-501). -/
def rule3 (ql : String) (tables : List String) (columns : ColDict) :
    Option String :=
  if (pyContains ql "top" || pyContains ql "highest") && pyContains ql "price" then
    (tables.find? (fun t => (lcCols columns t).contains "price")).map
      (fun t => "SELECT * FROM " ++ t ++ " ORDER BY price DESC LIMIT 5;")
  else none

/-- Count pattern (source lines 504-508); always emits once triggered. -/
def rule4 (ql main_table : String) (tables : List String) : Option String :=
  if pyContains ql "count" then
    match tables.find? (fun t => pyContains ql (pyLower t)) with
    | some t => some ("SELECT COUNT(*) as total_count FROM " ++ t ++ ";")
    | none => some ("SELECT COUNT(*) as total_count FROM " ++ main_table ++ ";")
  else none

/-- Show/list/display a named table (source lines 511-513). -/
def rule5 (ql : String) (tables : List String) : Option String :=
  (tables.find? (fun t =>
      pyContains ql (pyLower t) &&
      (pyContains ql "show" || pyContains ql "list" || pyContains ql "display"))).map
    (fun t => "SELECT * FROM " ++ t ++ ";")

/-- Stock-below pattern (source lines 516-519). -/
def rule6 (ql : String) (tables : List String) (columns : ColDict) :
    Option String :=
  if pyContains ql "stock" &&
      (pyContains ql "less" || pyContains ql "below" || pyContains ql "under") then
    (tables.find? (fun t => (lcCols columns t).contains "stock_quantity")).map
      (fun t => "SELECT * FROM " ++ t ++ " WHERE stock_quantity < 50;")
  else none

/-- Sales-by-employee JOIN pattern (source lines 522-526). -/
def rule7 (ql : String) (tables : List String) : Option String :=
  if pyContains ql "sales" && pyContains ql "employee" then
    match tables.find? (fun t => pyContains (pyLower t) "sales"),
        tables.find? (fun t => pyContains (pyLower t) "employee") with
    | some st, some et =>
      some ("SELECT e.name, SUM(s.total_amount) as total_sales FROM " ++ et ++
        " e JOIN " ++ st ++ " s ON e.id = s.employee_id GROUP BY e.id, e.name;")
    | _, _ => none
  else none

/-- Electronics category pattern (source lines 529-532). -/
def rule8 (ql : String) (tables : List String) (columns : ColDict) :
    Option String :=
  if pyContains ql "electronics" then
    (tables.find? (fun t => (lcCols columns t).contains "category")).map
      (fun t => "SELECT * FROM " ++ t ++ " WHERE category = 'Electronics';")
  else none

/-- Hired-after pattern (source lines 535-538). -/
def rule9 (ql : String) (tables : List String) (columns : ColDict) :
    Option String :=
  if pyContains ql "hired after" || pyContains ql "hire_date" then
    (tables.find? (fun t => (lcCols columns t).contains "hire_date")).map
      (fun t => "SELECT * FROM " ++ t ++ " WHERE hire_date > '2022-01-01';")
  else none

/-- The ordered cascade of rules 1-9: first match wins. -/
def ruleCascade (ql main_table : String) (tables : List String)
    (columns : ColDict) : Option String :=
  match rule1 ql tables columns with
  | some s => some s
  | none =>
  match rule2 ql tables columns with
  | some s => some s
  | none =>
  match rule3 ql tables columns with
  | some s => some s
  | none =>
  match rule4 ql main_table tables with
  | some s => some s
  | none =>
  match rule5 ql tables with
  | some s => some s
  | none =>
  match rule6 ql tables columns with
  | some s => some s
  | none =>
  match rule7 ql tables with
  | some s => some s
  | none =>
  match rule8 ql tables columns with
  | some s => some s
  | none => rule9 ql tables columns

/-- `NLToSQLConverter.generate_sql_rule_based`. -/
def generate_sql_rule_based (question schema_info : String) : String × Bool :=
  let p := ruleParse schema_info
  let question_lower := pyLower question
  if p.1 = [] then
    ("-- Please provide database schema to generate SQL", false)
  else
    let main_table := p.1.headD ""
    match ruleCascade question_lower main_table p.1 p.2 with
    | some sql => (sql, true)
    | none => ("SELECT * FROM " ++ main_table ++ " LIMIT 10;", true)

/-!
## NLToSQLConverter: template tier and main entry
(`src/app.py`, `generate_helpful_template` and `generate_sql`)
-/

/-- Table names recovered by `generate_helpful_template`: lines whose
stripped form starts with `Table:`, split on `:` of the raw line. -/
def templateTables (schema_info : String) : List String :=
  (splitLines schema_info).filterMap (fun line =>
    if pyStartswith (pyStrip line) "Table:" then
      some (pyStrip (getPart (pySplit ':' line) 1))
    else none)

/-- `NLToSQLConverter.generate_helpful_template`. -/
def generate_helpful_template (question schema_info : String) : String × Bool :=
  let tables := templateTables schema_info
  if tables = [] then
    ("-- No schema provided. Please define your database schema first.\n-- Example:\n-- SELECT * FROM your_table_name;",
      true)
  else
    let main_table := tables.headD ""
    let ql := pyLower question
    if pyContains ql "count" || pyContains ql "how many" then
      ("-- Count query template:\nSELECT COUNT(*) as total_count \nFROM " ++
        main_table ++
        ";\n\n-- To count specific conditions, add WHERE clause:\n-- SELECT COUNT(*) FROM " ++
        main_table ++ " WHERE column_name = 'value';", true)
    else if pyContains ql "average" || pyContains ql "avg" || pyContains ql "mean" then
      ("-- Average calculation template:\nSELECT AVG(numeric_column) as average_value \nFROM " ++
        main_table ++
        ";\n\n-- To group by category:\n-- SELECT category, AVG(numeric_column) FROM " ++
        main_table ++ " GROUP BY category;", true)
    else if pyContains ql "top" || pyContains ql "highest" || pyContains ql "best" ||
        pyContains ql "maximum" then
      ("-- Top records template:\nSELECT * \nFROM " ++ main_table ++
        " \nORDER BY column_name DESC \nLIMIT 10;\n\n-- Replace 'column_name' with the actual column you want to sort by",
        true)
    else if pyContains ql "show" || pyContains ql "list" || pyContains ql "display" ||
        pyContains ql "get" then
      ("-- Show records template:\nSELECT * \nFROM " ++ main_table ++
        ";\n\n-- To filter specific records:\n-- SELECT * FROM " ++ main_table ++
        " WHERE column_name = 'value';", true)
    else
      ("-- Generic query template based on your question:\nSELECT * \nFROM " ++
        main_table ++ " \nLIMIT 10;\n\n-- Available tables: " ++
        joinSep ", " tables ++ "\n-- Modify this query based on your specific needs",
        true)

/-- `NLToSQLConverter.generate_sql`: rule tier first; its result is
returned with `ok = True` unless it is empty or an `-- Error` comment,
in which case the template tier runs. -/
def generate_sql (question schema_info : String) : String × Bool :=
  let r := generate_sql_rule_based question schema_info
  if r.2 && !pyStartswith r.1 "--" then (r.1, true)
  else if !(r.1 = "") && !pyStartswith r.1 "-- Error" then (r.1, true)
  else generate_helpful_template question schema_info

/-!
## SqlSanitizer (`src/app.py`, `NLToSQLConverter.clean_sql_output`)

The method performs, in order: `strip()`; `re.sub(r'```sql\n?', '')`;
`re.sub(r'```\n?', '')`; stripping each of the literal prefixes
`SQL:`, `Query:`, `Answer:` when present; cutting at the first SQL
keyword found (keywords tried in list order, cutting at `str.find` of
the first listed keyword that occurs at all); `re.sub(r'\s+', ' ')`
and a final `strip()`.
-/

/-- Consume the literal `pat` from the front of `l` (case-sensitive),
returning the remainder on success. -/
def dropExact : List Char → List Char → Option (List Char)
  | [], l => some l
  | _ :: _, [] => none
  | p :: ps, c :: cs => if c = p then dropExact ps cs else none

/-- Consume one optional newline: the `\n?` tail of the fence patterns. -/
def dropLf (l : List Char) : List Char :=
  match l with
  | '\n' :: t => t
  | t => t

/-- `re.sub(pat ++ '\n?', '', l)` for a literal pattern `pat`:
left-to-right scan removing every non-overlapping occurrence of `pat`
together with one optional following newline.  Each step consumes at
least one character of `l`, so recursion on a fuel counter initialised
to `l.length` computes the scan exactly (with a non-empty pattern the
fuel is never exhausted). -/
def subRemoveF : Nat → List Char → List Char → List Char
  | 0, _, l => l
  | _ + 1, _, [] => []
  | fuel + 1, pat, c :: cs =>
    match pat, dropExact pat (c :: cs) with
    | _ :: _, some rest => subRemoveF fuel pat (dropLf rest)
    | _, _ => c :: subRemoveF fuel pat cs

/-- `re.sub` of a literal pattern plus `\n?`. -/
def subRemove (pat : List Char) (l : List Char) : List Char :=
  subRemoveF l.length pat l

/-- Remove the markdown fences: the two `re.sub` calls. -/
def stripFences (s : String) : String :=
  String.mk (subRemove ("```".data) (subRemove ("```sql".data) s.data))

/-- Strip one literal prefix and re-strip whitespace when it matches. -/
def stripOnePre (pre s : String) : String :=
  if pyStartswith s pre then pyStrip (pyDrop s pre.data.length) else s

/-- The prefix-stripping loop over `["SQL:", "Query:", "Answer:"]`. -/
def stripPrefixes (s : String) : String :=
  stripOnePre "Answer:" (stripOnePre "Query:" (stripOnePre "SQL:" s))

/-- The keyword list of `clean_sql_output`, in source order. -/
def sqlKeywords : List String :=
  ["SELECT", "INSERT", "UPDATE", "DELETE", "WITH", "CREATE"]

/-- The keyword loop: for each keyword in list order, if it occurs in the
upper-cased text, cut at its first occurrence and stop. -/
def cutLoop (s : String) : List String → String
  | [] => s
  | k :: ks =>
    match findSub k.data (pyUpper s).data with
    | some i => pyDrop s i
    | none => cutLoop s ks

/-- Cut everything before the first detected SQL keyword. -/
def cutAtKeyword (s : String) : String := cutLoop s sqlKeywords

/-- `re.sub(r'\s+', ' ', l)`: collapse each maximal whitespace run into a
single space (the Boolean records whether we are inside a run). -/
def collapseAux : List Char → Bool → List Char
  | [], _ => []
  | c :: cs, inRun =>
    if isPySpace c then
      if inRun then collapseAux cs true else ' ' :: collapseAux cs true
    else c :: collapseAux cs false

/-- Whitespace collapsing followed by the final `strip()`. -/
def collapseWs (s : String) : String := pyStrip (String.mk (collapseAux s.data false))

/-- `NLToSQLConverter.clean_sql_output`. -/
def clean_sql_output (raw_output : String) : String :=
  collapseWs (cutAtKeyword (stripPrefixes (stripFences (pyStrip raw_output))))

/-!
## NLToSQLConverter: remote tier (`src/app.py`, `try_ai_generation`)

The loop over `self.models` posts to one backend per iteration.  The
network interaction is modelled by the list `responses`, one entry per
candidate backend in the fixed preference order `self.models`:
`none` stands for any failed attempt (request exception, timeout,
non-200 status, or a JSON body that is not a non-empty list), and
`some gt` stands for an HTTP 200 response whose first element yielded
`generated_text` equal to `gt` (the `.get` default `""` included).
-/

/-- Whether one backend outcome is accepted by the loop body:
the cleaned text must be non-empty with stripped length above 10. -/
def usableResp : Option String → Bool
  | none => false
  | some gt =>
    let sql_query := clean_sql_output gt
    !(sql_query = "") && decide (10 < (pyStrip sql_query).data.length)

/-- `NLToSQLConverter.try_ai_generation`, the backend outcomes abstracted
as `responses` (see the section comment). -/
def try_ai_generation (responses : List (Option String)) : String × Bool :=
  match responses with
  | [] => ("AI models unavailable. Please try again later.", false)
  | none :: rest => try_ai_generation rest
  | some gt :: rest =>
    let sql_query := clean_sql_output gt
    if !(sql_query = "") && decide (10 < (pyStrip sql_query).data.length) then
      (sql_query, true)
    else try_ai_generation rest

/-!
## Specification-side definitions

Predicates and observation functions used to state the claims; they are
not part of the embedded program.
-/

/-- A line of the simple schema notation (section 6 of the spec): blank, a
`Table:` header, or a `-` column line, up to surrounding whitespace. -/
def simpleSchemaLine (l : String) : Prop :=
  pyStrip l = "" ∨ pyStartswith (pyStrip l) "Table:" = true ∨
    pyStartswith (pyStrip l) "-" = true

instance (l : String) : Decidable (simpleSchemaLine l) := by
  unfold simpleSchemaLine; infer_instance

/-- A well-formed simple-notation schema text: every line of the stripped
text is a simple-notation line. -/
def wellFormedSimple (text : String) : Prop :=
  ∀ l ∈ splitLines (pyStrip text), simpleSchemaLine l

instance (text : String) : Decidable (wellFormedSimple text) := by
  unfold wellFormedSimple; infer_instance

/-- The table name declared by a `Table:` line, if any, exactly as the
schema scan of `generate_sql_rule_based` extracts it. -/
def tableLineName (raw : String) : Option String :=
  let line := pyStrip raw
  if pyStartswith line "Table:" then
    some (pyStrip (getPart (pySplit ':' line) 1))
  else none

/-!
## Helper lemmas
-/

theorem stripChars_eq_rdropWhile (l : List Char) :
    stripChars l = List.rdropWhile isPySpace (l.dropWhile isPySpace) := rfl

theorem stripChars_idem (l : List Char) :
    stripChars (stripChars l) = stripChars l := by
  rw [stripChars_eq_rdropWhile, stripChars_eq_rdropWhile]
  have h1 : List.dropWhile isPySpace
      (List.rdropWhile isPySpace (l.dropWhile isPySpace)) =
      List.rdropWhile isPySpace (l.dropWhile isPySpace) := by
    rw [List.dropWhile_eq_self_iff]
    intro hl
    have hpre : List.rdropWhile isPySpace (l.dropWhile isPySpace) <+:
        l.dropWhile isPySpace := List.rdropWhile_prefix _ _
    have hlen : 0 < (l.dropWhile isPySpace).length :=
      Nat.lt_of_lt_of_le hl hpre.length_le
    have hhead : ¬ isPySpace ((l.dropWhile isPySpace).get ⟨0, hlen⟩) := by
      have := (List.dropWhile_eq_self_iff).mp (List.dropWhile_idempotent isPySpace l)
      exact this hlen
    simpa [List.get_eq_getElem, List.IsPrefix.getElem hpre hl] using hhead
  rw [h1, List.rdropWhile_idempotent]

theorem pyStrip_idem (s : String) : pyStrip (pyStrip s) = pyStrip s := by
  simp [pyStrip, stripChars_idem]

/-- A line whose stripped upper-case form does not start with
`CREATE TABLE` leaves the table-less DDL-scan state unchanged. -/
theorem ddlLineStep_no_create (info : List String) (l : String)
    (h : pyStartswith (pyUpper (pyStrip l)) "CREATE TABLE" = false) :
    ddlLineStep (info, none) l = (info, none) := by
  simp [ddlLineStep, h]

theorem foldl_ddl_no_create (lines : List String) (info : List String)
    (h : ∀ l ∈ lines, pyStartswith (pyUpper (pyStrip l)) "CREATE TABLE" = false) :
    lines.foldl ddlLineStep (info, none) = (info, none) := by
  induction lines with
  | nil => rfl
  | cons x xs ih =>
    rw [List.foldl_cons, ddlLineStep_no_create info x (h x (by simp))]
    exact ih (fun l hl => h l (by simp [hl]))

/-- `extract_from_ddl` returns its input verbatim when no line opens a
`CREATE TABLE`. -/
theorem extract_from_ddl_no_create (s : String)
    (h : ∀ l ∈ splitLines s,
        pyStartswith (pyUpper (pyStrip l)) "CREATE TABLE" = false) :
    extract_from_ddl s = s := by
  simp [extract_from_ddl, foldl_ddl_no_create (splitLines s) [] h]

/-- `parse_schema_input` only strips surrounding whitespace when no line
of the stripped input opens a `CREATE TABLE`. -/
theorem parse_schema_input_no_create (s : String)
    (h : ∀ l ∈ splitLines (pyStrip s),
        pyStartswith (pyUpper (pyStrip l)) "CREATE TABLE" = false) :
    parse_schema_input s = pyStrip s := by
  by_cases he : pyStrip s = ""
  · simp [parse_schema_input, he]
  · simp only [parse_schema_input, if_neg he]
    split
    · exact extract_from_ddl_no_create (pyStrip s) h
    · rfl

/-- Heads: a prefix in character lists determines the head. -/
theorem isPrefixOf_head (a : Char) (as l : List Char)
    (h : (a :: as).isPrefixOf l = true) : ∃ t, l = a :: t := by
  cases l with
  | nil => simp [List.isPrefixOf] at h
  | cons c cs =>
    simp only [List.isPrefixOf, Bool.and_eq_true, beq_iff_eq] at h
    exact ⟨cs, by rw [h.1]⟩

/-- A simple-notation line never starts (upper-cased) with `CREATE TABLE`. -/
theorem no_create_of_simple (l : String) (h : simpleSchemaLine l) :
    pyStartswith (pyUpper (pyStrip l)) "CREATE TABLE" = false := by
  rcases h with h | h | h
  · rw [h]; decide
  · obtain ⟨t, ht⟩ := isPrefixOf_head 'T' "able:".data (pyStrip l).data h
    simp only [pyStartswith, pyUpper, ht, List.map_cons]
    have hc : ('C' == Char.toUpper 'T') = false := by decide
    simp [List.isPrefixOf, hc]
  · obtain ⟨t, ht⟩ := isPrefixOf_head '-' [] (pyStrip l).data h
    simp only [pyStartswith, pyUpper, ht, List.map_cons]
    have hc : ('C' == Char.toUpper '-') = false := by decide
    simp [List.isPrefixOf, hc]

/-!
## Claims
-/

/-- C10: for every input text containing no line that (after trimming)
begins case-insensitively with `CREATE TABLE`, `parse_schema_input`
returns the input unchanged except for stripping surrounding whitespace:
simple-notation input with `Table:` lines is routed through
`extract_from_ddl` (the substring `TABLE` triggers the DDL branch), which
opens no table and returns its argument verbatim. -/
theorem parse_schema_input_only_strips (text : String)
    (h : ∀ l ∈ splitLines (pyStrip text),
        pyStartswith (pyUpper (pyStrip l)) "CREATE TABLE" = false) :
    parse_schema_input text = pyStrip text :=
  parse_schema_input_no_create text h

theorem parse_schema_input_only_strips_witness :
    (∀ l ∈ splitLines (pyStrip "  Table: users\n  - id: INT  "),
        pyStartswith (pyUpper (pyStrip l)) "CREATE TABLE" = false) ∧
    parse_schema_input "  Table: users\n  - id: INT  " =
      pyStrip "  Table: users\n  - id: INT  " :=
  ⟨by decide, parse_schema_input_only_strips "  Table: users\n  - id: INT  " (by decide)⟩

/-- C7: canonicalization is idempotent on well-formed simple-notation
schema texts: applying the parse-then-serialize normalization
`parse_schema_input` a second time reproduces the result of the first
application. -/
theorem canonicalization_idem (text : String) (h : wellFormedSimple text) :
    parse_schema_input (parse_schema_input text) = parse_schema_input text := by
  have hnc : ∀ l ∈ splitLines (pyStrip text),
      pyStartswith (pyUpper (pyStrip l)) "CREATE TABLE" = false :=
    fun l hl => no_create_of_simple l (h l hl)
  have h1 : parse_schema_input text = pyStrip text :=
    parse_schema_input_no_create text hnc
  have h2 : parse_schema_input (pyStrip text) = pyStrip (pyStrip text) := by
    apply parse_schema_input_no_create
    rw [pyStrip_idem]
    exact hnc
  rw [h1, h2, pyStrip_idem]

theorem canonicalization_idem_witness :
    wellFormedSimple "Table: users\n  - id: INTEGER (PRIMARY KEY)\n  - email: VARCHAR(100)" ∧
    parse_schema_input (parse_schema_input
      "Table: users\n  - id: INTEGER (PRIMARY KEY)\n  - email: VARCHAR(100)") =
      parse_schema_input
        "Table: users\n  - id: INTEGER (PRIMARY KEY)\n  - email: VARCHAR(100)" :=
  ⟨by decide, canonicalization_idem
    "Table: users\n  - id: INTEGER (PRIMARY KEY)\n  - email: VARCHAR(100)" (by decide)⟩

/-- C1 (amended): when the schema text parses to zero tables (in
particular for the empty schema), the rule tier produces the payload
`-- Please provide database schema to generate SQL` with `ok = False`,
and `generate_sql` returns that same payload immediately — without
invoking the remote tier or the template fallback — but re-wrapped with
`ok = True` (the payload is non-empty and does not start with
`-- Error`, so the second early return of `generate_sql` fires). -/
theorem generate_sql_empty_schema (question schema : String)
    (h : (ruleParse schema).1 = []) :
    generate_sql_rule_based question schema =
      ("-- Please provide database schema to generate SQL", false) ∧
    generate_sql question schema =
      ("-- Please provide database schema to generate SQL", true) := by
  have h1 : generate_sql_rule_based question schema =
      ("-- Please provide database schema to generate SQL", false) := by
    simp only [generate_sql_rule_based]
    rw [if_pos h]
  refine ⟨h1, ?_⟩
  have c1 : pyStartswith "-- Please provide database schema to generate SQL" "--" = true := by
    decide
  have c2 : pyStartswith "-- Please provide database schema to generate SQL" "-- Error" = false := by
    decide
  have c3 : ¬ (("-- Please provide database schema to generate SQL" : String) = "") := by
    decide
  simp [generate_sql, h1, c1, c2, c3]

theorem generate_sql_empty_schema_witness :
    (ruleParse "").1 = [] ∧
    generate_sql "Show all users" "" =
      ("-- Please provide database schema to generate SQL", true) :=
  ⟨by decide, (generate_sql_empty_schema "Show all users" "" (by decide)).2⟩

/-- C1 counterexample: at the empty schema the claim predicts
`ok = false` from `generate_sql`, but the code returns the comment
payload paired with `ok = true`. -/
theorem generate_sql_empty_schema_cex :
    generate_sql "Show all users" "" =
      ("-- Please provide database schema to generate SQL", true) ∧
    (generate_sql "Show all users" "").2 ≠ false := by
  constructor
  · decide
  · decide

/-- C6: whenever the schema scan of the rule tier finds at least one
table, `generate_sql_rule_based` reports success: every rule of the
cascade, including the unconditional `SELECT * FROM <main table>
LIMIT 10;` default, returns `ok = True`. -/
theorem rule_based_total (question schema : String)
    (h : (ruleParse schema).1 ≠ []) :
    (generate_sql_rule_based question schema).2 = true := by
  simp only [generate_sql_rule_based]
  rw [if_neg h]
  cases ruleCascade (pyLower question) ((ruleParse schema).1.headD "")
    (ruleParse schema).1 (ruleParse schema).2 <;> rfl

theorem rule_based_total_witness :
    (ruleParse "Table: t").1 ≠ [] ∧
    (generate_sql_rule_based "hello" "Table: t").2 = true :=
  ⟨by decide, rule_based_total "hello" "Table: t" (by decide)⟩

/-- C2 (amended): when the lower-cased question contains both `average`
and `salary` (and not `engineering`, so rule 1 cannot preempt), the rule
tier commits to the FIRST table in model order that has a `salary`
column: it emits the grouped form when that same table also has a
`department` column, and the single-column
`SELECT AVG(salary) as average_salary FROM <table>;` otherwise.  A later
table having both columns does not override an earlier salary-only
table, so rule 2b fires whenever the first salary-bearing table lacks
`department`, not only when no table has both. -/
theorem rule2_first_salary_table (question schema t : String)
    (hq1 : pyContains (pyLower question) "average" = true)
    (hq2 : pyContains (pyLower question) "salary" = true)
    (hq3 : pyContains (pyLower question) "engineering" = false)
    (ht : (ruleParse schema).1.find?
        (fun tb => (lcCols (ruleParse schema).2 tb).contains "salary") = some t) :
    generate_sql_rule_based question schema =
      ((if (lcCols (ruleParse schema).2 t).contains "department" then
          "SELECT department, AVG(salary) as avg_salary FROM " ++ t ++
            " GROUP BY department;"
        else
          "SELECT AVG(salary) as average_salary FROM " ++ t ++ ";"), true) := by
  have hne : (ruleParse schema).1 ≠ [] := by
    intro h0
    rw [h0] at ht
    simp [List.find?] at ht
  have hr1 : rule1 (pyLower question) (ruleParse schema).1 (ruleParse schema).2 =
      none := by
    simp [rule1, hq3]
  have hr2 : rule2 (pyLower question) (ruleParse schema).1 (ruleParse schema).2 =
      some (if (lcCols (ruleParse schema).2 t).contains "department" then
          "SELECT department, AVG(salary) as avg_salary FROM " ++ t ++
            " GROUP BY department;"
        else
          "SELECT AVG(salary) as average_salary FROM " ++ t ++ ";") := by
    simp only [rule2, hq1, hq2, Bool.and_self, if_true]
    rw [ht]
    rfl
  simp only [generate_sql_rule_based]
  rw [if_neg hne]
  simp only [ruleCascade, hr1, hr2]

theorem rule2_first_salary_table_witness :
    pyContains (pyLower "What is the average salary?") "average" = true ∧
    pyContains (pyLower "What is the average salary?") "salary" = true ∧
    pyContains (pyLower "What is the average salary?") "engineering" = false ∧
    (ruleParse "Table: emp\n- salary: INT\n- department: TEXT").1.find?
      (fun tb => (lcCols (ruleParse "Table: emp\n- salary: INT\n- department: TEXT").2 tb).contains "salary") =
        some "emp" ∧
    generate_sql_rule_based "What is the average salary?"
      "Table: emp\n- salary: INT\n- department: TEXT" =
      ("SELECT department, AVG(salary) as avg_salary FROM emp GROUP BY department;", true) := by
  refine ⟨by decide, by decide, by decide, by decide, ?_⟩
  have h := rule2_first_salary_table "What is the average salary?"
    "Table: emp\n- salary: INT\n- department: TEXT" "emp"
    (by decide) (by decide) (by decide) (by decide)
  rw [h]
  decide

/-- C2 counterexample: table `staff` (salary only) precedes table `emp`
(salary and department); the claim demands the grouped form for `emp`,
but the code answers with the single-column form for `staff`. -/
theorem rule2_first_salary_table_cex :
    (lcCols (ruleParse "Table: staff\n- salary: INT\nTable: emp\n- salary: INT\n- department: TEXT").2 "emp").contains "salary" = true ∧
    (lcCols (ruleParse "Table: staff\n- salary: INT\nTable: emp\n- salary: INT\n- department: TEXT").2 "emp").contains "department" = true ∧
    generate_sql_rule_based "average salary"
      "Table: staff\n- salary: INT\nTable: emp\n- salary: INT\n- department: TEXT" =
      ("SELECT AVG(salary) as average_salary FROM staff;", true) ∧
    ("SELECT AVG(salary) as average_salary FROM staff;" : String) ≠
      "SELECT department, AVG(salary) as avg_salary FROM emp GROUP BY department;" := by
  refine ⟨by decide, by decide, by decide, by decide⟩

theorem cutLoop_of_all_none (s : String) (ks : List String)
    (h : ∀ k ∈ ks, findSub k.data (pyUpper s).data = none) :
    cutLoop s ks = s := by
  induction ks with
  | nil => rfl
  | cons k ks ih =>
    simp only [cutLoop]
    rw [h k (by simp)]
    exact ih (fun k2 hk => h k2 (by simp [hk]))

theorem cutLoop_first_hit (s : String) (pre post : List String)
    (k : String) (i : Nat)
    (hpre : ∀ k2 ∈ pre, findSub k2.data (pyUpper s).data = none)
    (hk : findSub k.data (pyUpper s).data = some i) :
    cutLoop s (pre ++ k :: post) = pyDrop s i := by
  induction pre with
  | nil =>
    rw [List.nil_append]
    simp only [cutLoop]
    rw [hk]
  | cons p rest ih =>
    rw [List.cons_append]
    simp only [cutLoop]
    rw [hpre p (by simp)]
    exact ih (fun k2 h2 => hpre k2 (by simp [h2]))

/-- C3 (amended): the keyword-cut step of `clean_sql_output` tries the
keywords in the fixed list order SELECT, INSERT, UPDATE, DELETE, WITH,
CREATE and discards everything before the first occurrence of the FIRST
keyword in that list that occurs anywhere (case-insensitively): for any
split of the keyword list, if no earlier-listed keyword occurs and
keyword `k` occurs first at position `i`, the text is cut at `i` —
regardless of whether later-listed keywords occur at smaller positions.
When none of the six occurs the text is unchanged.  In particular the
cut is NOT at the positionally earliest occurrence over all six
keywords: with `WITH` before `SELECT` the text is cut at `SELECT`. -/
theorem cut_at_keyword_spec (s : String) :
    ((∀ k ∈ sqlKeywords, findSub k.data (pyUpper s).data = none) →
      cutAtKeyword s = s) ∧
    (∀ (pre post : List String) (k : String) (i : Nat),
      sqlKeywords = pre ++ k :: post →
      (∀ k2 ∈ pre, findSub k2.data (pyUpper s).data = none) →
      findSub k.data (pyUpper s).data = some i →
      cutAtKeyword s = pyDrop s i) := by
  constructor
  · intro h
    exact cutLoop_of_all_none s sqlKeywords h
  · intro pre post k i heq hpre hk
    rw [cutAtKeyword, heq]
    exact cutLoop_first_hit s pre post k i hpre hk

theorem cut_at_keyword_spec_witness :
    (∀ k2 ∈ (["SELECT", "INSERT", "UPDATE", "DELETE"] : List String),
      findSub k2.data (pyUpper "create t with x").data = none) ∧
    findSub ("WITH" : String).data (pyUpper "create t with x").data = some 9 ∧
    findSub ("CREATE" : String).data (pyUpper "create t with x").data = some 0 ∧
    cutAtKeyword "create t with x" = pyDrop "create t with x" 9 :=
  ⟨by decide, by decide, by decide,
    (cut_at_keyword_spec "create t with x").2
      ["SELECT", "INSERT", "UPDATE", "DELETE"] ["CREATE"] "WITH" 9
      rfl (by decide) (by decide)⟩

/-- C3 counterexample: in `with t as x select 1` the keyword `WITH`
occurs at position 0, before `SELECT`; the claim predicts the cut at
`WITH` (leaving the text unchanged), but the sanitizer cuts at `SELECT`
and returns `select 1`. -/
theorem cut_at_keyword_cex :
    findSub ("WITH" : String).data (pyUpper "with t as x select 1").data = some 0 ∧
    clean_sql_output "with t as x select 1" = "select 1" ∧
    ("select 1" : String) ≠ "with t as x select 1" := by
  refine ⟨by decide, by decide, by decide⟩

/-- C4 (amended): in the canonical serialization the constraint list of a
column is always an in-order sublist of
`[NOT NULL, PRIMARY KEY, FOREIGN KEY]` — the detection order of the
source — so a column carrying both `NOT NULL` and `PRIMARY KEY` is
serialized with `NOT NULL` first, not `PRIMARY KEY` first. -/
theorem constraints_fixed_order (line : String) :
    List.Sublist (constraintsOf line) ["NOT NULL", "PRIMARY KEY", "FOREIGN KEY"] ∧
    (pyContains (pyUpper line) "NOT NULL" = true →
      pyContains (pyUpper line) "PRIMARY KEY" = true →
      ∃ rest, constraintsOf line = "NOT NULL" :: "PRIMARY KEY" :: rest) := by
  constructor
  · by_cases h1 : pyContains (pyUpper line) "NOT NULL" <;>
      by_cases h2 : pyContains (pyUpper line) "PRIMARY KEY" <;>
      by_cases h3 : pyContains (pyUpper line) "FOREIGN KEY" <;>
      simp [constraintsOf, h1, h2, h3]
  · intro h1 h2
    refine ⟨if pyContains (pyUpper line) "FOREIGN KEY" then ["FOREIGN KEY"] else [], ?_⟩
    simp [constraintsOf, h1, h2]

theorem constraints_fixed_order_witness :
    pyContains (pyUpper "id INTEGER NOT NULL PRIMARY KEY") "NOT NULL" = true ∧
    pyContains (pyUpper "id INTEGER NOT NULL PRIMARY KEY") "PRIMARY KEY" = true ∧
    ∃ rest, constraintsOf "id INTEGER NOT NULL PRIMARY KEY" =
      "NOT NULL" :: "PRIMARY KEY" :: rest :=
  ⟨by decide, by decide,
    (constraints_fixed_order "id INTEGER NOT NULL PRIMARY KEY").2 (by decide) (by decide)⟩

/-- C4 counterexample: a DDL column carrying both `NOT NULL` and
`PRIMARY KEY` is serialized as `(NOT NULL, PRIMARY KEY)` — `NOT NULL`
first — while the claim requires `(PRIMARY KEY, NOT NULL)`. -/
theorem constraints_fixed_order_cex :
    extract_from_ddl "CREATE TABLE t\nid INTEGER NOT NULL PRIMARY KEY" =
      "\nTable: t\n  - id: INTEGER (NOT NULL, PRIMARY KEY)" ∧
    pyContains (extract_from_ddl "CREATE TABLE t\nid INTEGER NOT NULL PRIMARY KEY")
      "(PRIMARY KEY, NOT NULL)" = false := by
  refine ⟨by decide, by decide⟩

/-- C5: in DDL parsing, any non-`CREATE TABLE` line containing a literal
`(` or `)` leaves the scan state unchanged (contributes no column), so a
column definition whose type carries a size qualifier such as
`VARCHAR(50)` is silently dropped; in particular parsing
`CREATE TABLE t (id INTEGER, name VARCHAR(50));` yields table `t` with
no columns at all, hence none named `name`. -/
theorem paren_lines_drop_columns :
    (∀ (st : List String × Option String) (line : String),
      pyStartswith (pyUpper (pyStrip line)) "CREATE TABLE" = false →
      (pyContains (pyStrip line) "(" || pyContains (pyStrip line) ")") = true →
      ddlLineStep st line = st) ∧
    extract_from_ddl "CREATE TABLE t (id INTEGER, name VARCHAR(50));" =
      "\nTable: t" ∧
    ruleParse (extract_from_ddl "CREATE TABLE t (id INTEGER, name VARCHAR(50));") =
      (["t"], [("t", [])]) := by
  refine ⟨?_, by decide, by decide⟩
  intro st line h1 h2
  obtain ⟨info, cur⟩ := st
  cases cur with
  | none => simp [ddlLineStep, h1]
  | some t =>
    by_cases he : pyStrip line = ""
    · have hf : pyStartswith (pyUpper ("" : String)) "CREATE TABLE" = false := by decide
      simp [ddlLineStep, h1, he, hf]
    · by_cases hcm : pyStartswith (pyStrip line) "--" = true
      · simp [ddlLineStep, h1, he, hcm]
      · simp [ddlLineStep, h1, he, hcm, h2]

theorem paren_lines_drop_columns_witness :
    pyStartswith (pyUpper (pyStrip "  name VARCHAR(50),")) "CREATE TABLE" = false ∧
    (pyContains (pyStrip "  name VARCHAR(50),") "(" ||
      pyContains (pyStrip "  name VARCHAR(50),") ")") = true ∧
    ddlLineStep (["\nTable: t"], some "t") "  name VARCHAR(50)," =
      (["\nTable: t"], some "t") :=
  ⟨by decide, by decide,
    paren_lines_drop_columns.1 (["\nTable: t"], some "t") "  name VARCHAR(50),"
      (by decide) (by decide)⟩

theorem dictGet_dictSet (d : ColDict) (k : String) (v : List String) :
    dictGet (dictSet d k v) k = v := by
  induction d with
  | nil => simp [dictSet, dictGet]
  | cons kv rest ih =>
    obtain ⟨k1, v1⟩ := kv
    by_cases h : k1 = k
    · simp [dictSet, dictGet, h]
    · simp [dictSet, dictGet, h, ih]

theorem schemaLineStep_fst (st : List String × ColDict × Option String)
    (l : String) :
    (schemaLineStep st l).1 = st.1 ++ (tableLineName l).toList := by
  by_cases h : pyStartswith (pyStrip l) "Table:" = true
  · simp [schemaLineStep, tableLineName, h]
  · obtain ⟨ts, cs, cur⟩ := st
    cases cur with
    | none => simp [schemaLineStep, tableLineName, h]
    | some t =>
      simp only [schemaLineStep, tableLineName, h]
      split_ifs <;> simp

theorem foldl_schemaLineStep_fst (lines : List String)
    (st : List String × ColDict × Option String) :
    (lines.foldl schemaLineStep st).1 = st.1 ++ lines.filterMap tableLineName := by
  induction lines generalizing st with
  | nil => simp
  | cons l ls ih =>
    rw [List.foldl_cons, ih (schemaLineStep st l), schemaLineStep_fst]
    cases h : tableLineName l with
    | none => simp [List.filterMap_cons, h]
    | some n => simp [List.filterMap_cons, h]

/-- C8 (amended): the table sequence built by the schema scan is exactly
the sequence of names of the `Table:` lines in order of appearance —
duplicates included, because a re-declaration appends a second entry to
the table list; at the same time each `Table:` line resets the declared
name's entry in the column dict to the empty list, so the columns of the
last declaration win.  Table names in the parsed sequence are therefore
NOT necessarily unique. -/
theorem tables_from_table_lines (schema : String) :
    (ruleParse schema).1 = (splitLines schema).filterMap tableLineName ∧
    (∀ (st : List String × ColDict × Option String) (raw n : String),
      tableLineName raw = some n →
      dictGet (schemaLineStep st raw).2.1 n = []) := by
  constructor
  · simp [ruleParse, foldl_schemaLineStep_fst]
  · intro st raw n h
    by_cases hb : pyStartswith (pyStrip raw) "Table:" = true
    · have hn : pyStrip (getPart (pySplit ':' (pyStrip raw)) 1) = n := by
        simpa [tableLineName, hb] using h
      obtain ⟨ts, cs, cur⟩ := st
      simp [schemaLineStep, hb, hn, dictGet_dictSet]
    · simp [tableLineName, hb] at h

theorem tables_from_table_lines_witness :
    tableLineName "Table: t" = some "t" ∧
    dictGet (schemaLineStep (["t"], [("t", ["a"])], some "t") "Table: t").2.1 "t" = [] :=
  ⟨by decide,
    (tables_from_table_lines "").2 (["t"], [("t", ["a"])], some "t") "Table: t" "t"
      (by decide)⟩

/-- C8 counterexample: re-declaring `Table: t` appends a second `t`
entry, so the parsed table sequence `["t", "t"]` has two entries with the
same name (the claim says this cannot happen); the column list of `t` is
nevertheless reset, keeping only the columns of the last declaration. -/
theorem tables_from_table_lines_cex :
    (ruleParse "Table: t\n- a: INT\nTable: t\n- b: INT").1 = ["t", "t"] ∧
    dictGet (ruleParse "Table: t\n- a: INT\nTable: t\n- b: INT").2 "t" = ["b"] := by
  refine ⟨by decide, by decide⟩

theorem try_ai_cons_some (gt : String) (rest : List (Option String)) :
    try_ai_generation (some gt :: rest) =
      if usableResp (some gt) then (clean_sql_output gt, true)
      else try_ai_generation rest := rfl

theorem try_ai_all_fail (rs : List (Option String))
    (h : ∀ r ∈ rs, usableResp r = false) :
    try_ai_generation rs =
      ("AI models unavailable. Please try again later.", false) := by
  induction rs with
  | nil => rfl
  | cons r rest ih =>
    cases r with
    | none =>
      rw [show try_ai_generation (none :: rest) = try_ai_generation rest from rfl]
      exact ih (fun x hx => h x (by simp [hx]))
    | some gt =>
      rw [try_ai_cons_some, h (some gt) (by simp), if_neg Bool.false_ne_true]
      exact ih (fun x hx => h x (by simp [hx]))

theorem try_ai_first_usable (pre : List (Option String)) (gt : String)
    (post : List (Option String))
    (hpre : ∀ r ∈ pre, usableResp r = false)
    (hu : usableResp (some gt) = true) :
    try_ai_generation (pre ++ some gt :: post) = (clean_sql_output gt, true) := by
  induction pre with
  | nil =>
    rw [List.nil_append, try_ai_cons_some, hu, if_pos rfl]
  | cons r rest ih =>
    cases r with
    | none =>
      rw [List.cons_append,
        show try_ai_generation (none :: (rest ++ some gt :: post)) =
          try_ai_generation (rest ++ some gt :: post) from rfl]
      exact ih (fun x hx => hpre x (by simp [hx]))
    | some g =>
      rw [List.cons_append, try_ai_cons_some, hpre (some g) (by simp),
        if_neg Bool.false_ne_true]
      exact ih (fun x hx => hpre x (by simp [hx]))

/-- C9: the remote tier walks the candidate backends in their fixed
preference order (`responses` lists one outcome per backend, in that
order); a backend is accepted only when its sanitized `generated_text`
is non-empty with stripped length greater than 10 (`usableResp`), in
which case the first such backend's cleaned text is returned with
`ok = True`; if every candidate fails, the result is exactly
`("AI models unavailable. Please try again later.", false)`. -/
theorem remote_tier_spec (rs : List (Option String)) :
    ((∀ r ∈ rs, usableResp r = false) →
      try_ai_generation rs =
        ("AI models unavailable. Please try again later.", false)) ∧
    (∀ (pre : List (Option String)) (gt : String) (post : List (Option String)),
      rs = pre ++ some gt :: post →
      (∀ r ∈ pre, usableResp r = false) →
      usableResp (some gt) = true →
      try_ai_generation rs = (clean_sql_output gt, true)) :=
  ⟨try_ai_all_fail rs,
    fun pre gt post heq hpre hu => by
      rw [heq]
      exact try_ai_first_usable pre gt post hpre hu⟩

theorem remote_tier_spec_witness :
    (∀ r ∈ [(none : Option String), some "short"], usableResp r = false) ∧
    usableResp (some "  SELECT col_a, col_b FROM tbl;  ") = true ∧
    try_ai_generation [none, some "short", some "  SELECT col_a, col_b FROM tbl;  "] =
      (clean_sql_output "  SELECT col_a, col_b FROM tbl;  ", true) ∧
    try_ai_generation [(none : Option String), some "short"] =
      ("AI models unavailable. Please try again later.", false) :=
  ⟨by decide, by decide,
    (remote_tier_spec [none, some "short", some "  SELECT col_a, col_b FROM tbl;  "]).2
      [none, some "short"] "  SELECT col_a, col_b FROM tbl;  " [] rfl
      (by decide) (by decide),
    (remote_tier_spec [(none : Option String), some "short"]).1 (by decide)⟩
